import Mathlib

/-
  Shallow embedding of the interactive map-editing controller of the
  upload-point repository (the ImageTransformMap component).

  Numbers of the JavaScript runtime are modelled as rationals.  The
  trigonometric function used by the turf geodesic area formula and the
  constant Math.PI are abstract parameters (sine, pic), because their exact
  values never decide any of the properties below.
-/

/-- The per-feature properties object stored on a drawn layer
(`layer.feature.properties`).  Fields absent in JavaScript are modelled as
the empty string / `none`. -/
structure FeatureProps where
  name : String
  roomType : String
  roomSubType : String
  area : String
  timestamp : Option String
  dateAdded : Option String
  lastEdited : Option String
  lastEditedDate : Option String
deriving DecidableEq, Repr

/-- The properties object of a freshly created feature holder
(`layer.feature = \x7b type: 'Feature', properties: \x7b\x7d \x7d`). -/
def emptyProps : FeatureProps :=
  { name := "", roomType := "", roomSubType := "", area := "",
    timestamp := none, dateAdded := none, lastEdited := none, lastEditedDate := none }

/-- A drawn leaflet layer: the memoized `_turfArea` slot, the GeoJSON ring
returned by `toGeoJSON()` (pairs are (lng, lat); `none` models a layer whose
conversion fails), and the optional feature properties. -/
structure Layer where
  turfArea : Option ℚ
  geojson : Option (List (ℚ × ℚ))
  props : Option FeatureProps
deriving DecidableEq, Repr

/-- The attribute form state (`attrForm`): name, roomType, roomSubType, area,
all strings, empty string for an unset field. -/
structure AttrForm where
  name : String
  roomType : String
  roomSubType : String
  area : String
deriving DecidableEq, Repr

/-- Earth radius constant used by the turf geodesic area formula. -/
def earthRadius : ℚ := 6378137

/-- Degrees to radians, `x * Math.PI / 180`, with the value of Math.PI
abstracted as `pic`. -/
def rad (pic : ℚ) (x : ℚ) : ℚ := x * pic / 180

/-- The cyclic sum of the turf ring-area formula: for each index i the term
`(rad lng3 - rad lng1) * sin (rad lat2)` over the triple of consecutive
(cyclically indexed) coordinates. -/
def ringAreaSum (sine : ℚ → ℚ) (pic : ℚ) (coords : List (ℚ × ℚ)) : ℚ :=
  (List.range coords.length).foldl
    (fun acc i =>
      let p1 := coords.getD i (0, 0)
      let p2 := coords.getD ((i + 1) % coords.length) (0, 0)
      let p3 := coords.getD ((i + 2) % coords.length) (0, 0)
      acc + (rad pic p3.1 - rad pic p1.1) * sine (rad pic p2.2)) 0

/-- turf ringArea: zero unless the ring has more than 2 coordinates,
otherwise the cyclic sum scaled by R^2 / 2. -/
def ringArea (sine : ℚ → ℚ) (pic : ℚ) (coords : List (ℚ × ℚ)) : ℚ :=
  if 2 < coords.length then
    ringAreaSum sine pic coords * earthRadius * earthRadius / 2
  else 0

/-- turf area of a polygon consisting of a single exterior ring (drawn
shapes have no holes): the absolute value of the ring area. -/
def turfPolygonArea (sine : ℚ → ℚ) (pic : ℚ) (coords : List (ℚ × ℚ)) : ℚ :=
  |ringArea sine pic coords|

/-- Two-digit zero padding for the fractional part of a formatted number. -/
def pad2 (n : ℕ) : String :=
  if n < 10 then "0" ++ toString n else toString n

/-- JavaScript `x.toFixed(2)`: round to the nearest hundredth (half up) and
render with exactly two decimals. -/
def toFixed2 (q : ℚ) : String :=
  let sgn := if q < 0 then "-" else ""
  let h : ℤ := Int.floor (|q| * 100 + 1 / 2)
  sgn ++ toString (h / 100) ++ "." ++ pad2 ((h % 100).toNat)

/-- `calculateShapeArea(layer)`: returns the cached `_turfArea` formatted to
two decimals when present; otherwise computes the turf area of the GeoJSON
ring, caches it on the layer, and returns it formatted; returns "N/A" when
no GeoJSON is available.  The (possibly updated) layer is returned
alongside the string. -/
def calculateShapeArea (sine : ℚ → ℚ) (pic : ℚ) (layer : Layer) : String × Layer :=
  match layer.turfArea with
  | some a => (toFixed2 a, layer)
  | none =>
    match layer.geojson with
    | some ring =>
      let a := turfPolygonArea sine pic ring
      (toFixed2 a, { layer with turfArea := some a })
    | none => ("N/A", layer)

/-- Formatting the area value 0 yields the placeholder numeric string. -/
theorem toFixed2_zero : toFixed2 0 = "0.00" := by
  unfold toFixed2 pad2
  norm_num
  rfl

/-- Formatting the area value 5 square meters. -/
theorem toFixed2_five : toFixed2 5 = "5.00" := by
  unfold toFixed2 pad2
  norm_num
  rfl

/-- `applyAttributesToLayer(layer, attrs)`: ensures a feature properties
holder exists, takes the form area field or (when it is empty, i.e. falsy)
the computed shape area, and merges the form fields together with a fresh
`timestamp` and `dateAdded` into the existing properties. -/
def applyAttributesToLayer (sine : ℚ → ℚ) (pic : ℚ) (layer : Layer) (attrs : AttrForm)
    (nowIso nowDate : String) : Layer :=
  let p0 := layer.props.getD emptyProps
  let ar := if attrs.area != "" then (attrs.area, layer) else calculateShapeArea sine pic layer
  { ar.2 with
    props := some { p0 with
      name := attrs.name
      roomType := attrs.roomType
      roomSubType := attrs.roomSubType
      area := ar.1
      timestamp := some nowIso
      dateAdded := some nowDate } }

/-- The `hasChanged` test of the Save handler: the stored properties differ
from the submitted form on at least one of name, roomType, roomSubType,
area. -/
def attrsDiffer (p : FeatureProps) (f : AttrForm) : Bool :=
  (p.name != f.name) || (p.roomType != f.roomType) ||
  (p.roomSubType != f.roomSubType) || (p.area != f.area)

/-- The existing-feature branch of the Save handler: merge the form fields
over the stored properties; stamp `lastEdited` and `lastEditedDate` only
when `hasChanged`. -/
def saveExistingProps (p : FeatureProps) (f : AttrForm) (nowIso nowDate : String) :
    FeatureProps :=
  let merged := { p with
    name := f.name, roomType := f.roomType, roomSubType := f.roomSubType, area := f.area }
  if attrsDiffer p f then
    { merged with lastEdited := some nowIso, lastEditedDate := some nowDate }
  else merged

/-- The outcome of the Save click: the updated active layer (if any), the
`showAttrForm` state and the `activeLayer` state after the handler. -/
structure SaveResult where
  layer : Option Layer
  showAttrForm : Bool
  activeLayer : Option Layer
deriving DecidableEq, Repr

/-- The Save button onClick handler: returns early (leaving the form open)
when there is no active layer; takes the existing-feature branch when the
stored properties carry a timestamp, otherwise applies the attributes as a
new feature; in both non-early cases the form is closed and the active
layer cleared. -/
def saveClick (sine : ℚ → ℚ) (pic : ℚ) (active : Option Layer) (f : AttrForm)
    (nowIso nowDate : String) (showForm : Bool) : SaveResult :=
  match active with
  | none => { layer := none, showAttrForm := showForm, activeLayer := none }
  | some la =>
    let la' :=
      match la.props with
      | some p =>
        if p.timestamp.isSome then
          { la with props := some (saveExistingProps p f nowIso nowDate) }
        else applyAttributesToLayer sine pic la f nowIso nowDate
      | none => applyAttributesToLayer sine pic la f nowIso nowDate
    { layer := some la', showAttrForm := false, activeLayer := none }

/-- One layer passes the `hasConfiguredShapes` test when its feature
properties hold a non-empty name, roomType or roomSubType (JavaScript
truthiness of the three strings). -/
def layerConfigured (la : Layer) : Bool :=
  match la.props with
  | none => false
  | some p => (p.name != "") || (p.roomType != "") || (p.roomSubType != "")

/-- `hasConfiguredShapes()`: false when the drawn-items group was never
created; otherwise true when some stored layer passes the test. -/
def hasConfiguredShapes (store : Option (List Layer)) : Bool :=
  match store with
  | none => false
  | some ls => ls.any layerConfigured

/-- `exportGeoJSON()`: returns without exporting when the drawn-items group
or the leaflet module is missing; otherwise serializes every layer as its
geometry together with its properties. -/
def exportGeoJSON (leafletLoaded : Bool) (store : Option (List Layer)) :
    Option (List (Option (List (ℚ × ℚ)) × Option FeatureProps)) :=
  match store with
  | none => none
  | some ls =>
    if leafletLoaded then some (ls.map (fun la => (la.geojson, la.props))) else none

/-- The map view injected into `addImageToMap`: current center and zoom. -/
structure MapView where
  lat : ℚ
  lng : ℚ
  zoom : ℤ
deriving DecidableEq, Repr

/-- The half-span of the image bounding box: `0.005 / Math.pow(2, 15 - zoom)`. -/
def imageOffset (zoom : ℤ) : ℚ := (5 / 1000 : ℚ) / (2 : ℚ) ^ ((15 : ℤ) - zoom)

/-- The overlay produced by `addImageToMap`: its url, the `selected` creation
option, whether the distortable-image plugin path was taken, and the two
bounding corners ((lat, lng) pairs). -/
structure OverlaySpec where
  url : String
  selected : Bool
  distortable : Bool
  corner1 : ℚ × ℚ
  corner2 : ℚ × ℚ
deriving DecidableEq, Repr

/-- `addImageToMap(imageUrl)`: returns without acting when the map or the
plugins are not ready; otherwise computes the bounding box centered on the
current view with the zoom-dependent offset, and creates the overlay with
`selected: false` — through the distortable-image plugin when available,
through a plain image overlay (same bounds) otherwise. -/
def addImageToMap (mapAndPluginsReady : Bool) (hasDistortPlugin : Bool) (view : MapView)
    (url : String) : Option OverlaySpec :=
  if !mapAndPluginsReady then none
  else
    let off := imageOffset view.zoom
    let c1 := (view.lat - off, view.lng - off)
    let c2 := (view.lat + off, view.lng + off)
    if hasDistortPlugin then
      some { url := url, selected := false, distortable := true, corner1 := c1, corner2 := c2 }
    else
      some { url := url, selected := false, distortable := false, corner1 := c1, corner2 := c2 }

/-- The roomSubType filtering effect: when a room type is chosen and present
in the type-to-subtypes map, the available sub types are its entry and the
current sub type is reset to empty unless it is among them; otherwise the
available sub types are empty and the sub type is reset.  Returns the
available sub types together with the (possibly reset) sub type value. -/
def filterSubTypes (subMap : List (String × List String)) (roomType roomSubType : String) :
    List String × String :=
  if roomType != "" then
    match subMap.lookup roomType with
    | some available =>
      (available, if available.contains roomSubType then roomSubType else "")
    | none => ([], "")
  else ([], "")

/-- The `disabled` condition of the roomSubType selector: no room type is
chosen. -/
def subTypeSelectorDisabled (roomType : String) : Bool :=
  roomType == ""

/-- The two values of the mode prop: `distort` (Transform) and `draw`
(Annotate). -/
inductive EditorMode
  | distort
  | draw
deriving DecidableEq, Repr

/-- The affordance state the mode-switching effect acts on: whether the draw
control is attached to the map (`drawControlActiveRef`) and whether editing
of the image overlay is enabled. -/
structure ModeState where
  drawControlActive : Bool
  imageEditingEnabled : Bool
deriving DecidableEq, Repr

/-- The mode-switching effect.  `ready` models `mapReady` together with
`pluginsReadyRef` and the map and leaflet references; `hasImage` models a
current image overlay with an `editing` handler; `hasDrawControl` models a
created draw control.  Distort mode enables image editing and detaches the
draw control; draw mode attaches the draw control and disables image
editing. -/
def modeEffect (ready hasImage hasDrawControl : Bool) (s : ModeState) (m : EditorMode) :
    ModeState :=
  if !ready then s
  else
    match m with
    | EditorMode.distort =>
      { drawControlActive :=
          if hasDrawControl && s.drawControlActive then false else s.drawControlActive
        imageEditingEnabled := if hasImage then true else s.imageEditingEnabled }
    | EditorMode.draw =>
      { drawControlActive :=
          if hasDrawControl && !s.drawControlActive then true else s.drawControlActive
        imageEditingEnabled := if hasImage then false else s.imageEditingEnabled }

/-- The affordance state at mount: the draw control is not attached and
image editing is not enabled. -/
def initialModeState : ModeState :=
  { drawControlActive := false, imageEditingEnabled := false }

/-- Apply a sequence of mode-toggle invocations starting from the initial
state. -/
def runModes (ready hasImage hasDrawControl : Bool) (ms : List EditorMode) : ModeState :=
  ms.foldl (modeEffect ready hasImage hasDrawControl) initialModeState

/-- Session invariant of the mode controller: the draw control can only be
attached when it exists, image editing only enabled when an image overlay
exists, and never both affordances at once. -/
def modeInvariant (hasImage hasDrawControl : Bool) (s : ModeState) : Bool :=
  (!s.drawControlActive || hasDrawControl) &&
  (!s.imageEditingEnabled || hasImage) &&
  !(s.drawControlActive && s.imageEditingEnabled)

/-- The mutations of the asynchronous one-time initialization effect that
act on the map surface or the page. -/
inductive InitMutation
  | mapCreated
  | tileLayerAdded
  | drawToolsInitialized
  | resizeListenerAdded
  | mapReadySet
deriving DecidableEq, Repr

/-- When, relative to the await points of the initialization sequence, the
component unmounts (the cleanup sets `cancelled := true`):  never, during
the dynamic plugin imports, or during the `geocodePostcode` await (the
latter exists only when a postcode is supplied). -/
inductive UnmountTiming
  | never
  | duringPluginImports
  | duringGeocode
deriving DecidableEq, Repr

/-- The value of the `cancelled` flag at the single explicit check placed
after the plugin imports. -/
def cancelledAtImportCheck : UnmountTiming → Bool
  | UnmountTiming.duringPluginImports => true
  | _ => false

/-- The value of the `cancelled` flag once the geocode await has resumed
(just before the map is created). -/
def cancelledBeforeMapCreation : UnmountTiming → Bool
  | UnmountTiming.never => false
  | _ => true

/-- The surface mutations performed by the initialization effect.  The
`cancelled` flag is read once, after the plugin imports; when a postcode is
supplied the effect then awaits `geocodePostcode` and resumes without
re-reading the flag before creating the map, adding the tile layer,
initializing the draw tools, registering the resize listener and setting
`mapReady`. -/
def initMutations (t : UnmountTiming) (_hasPostcode : Bool) : List InitMutation :=
  if cancelledAtImportCheck t then []
  else
    [InitMutation.mapCreated, InitMutation.tileLayerAdded, InitMutation.drawToolsInitialized,
     InitMutation.resizeListenerAdded, InitMutation.mapReadySet]

/-- The mode-switching effect preserves the session invariant, whatever the
readiness and plugin flags. -/
theorem modeEffect_preserves_invariant (ready hasImage hasDrawControl : Bool)
    (s : ModeState) (m : EditorMode)
    (h : modeInvariant hasImage hasDrawControl s = true) :
    modeInvariant hasImage hasDrawControl (modeEffect ready hasImage hasDrawControl s m)
      = true := by
  cases m <;> cases ready <;> cases hasImage <;> cases hasDrawControl <;>
    rcases s with ⟨a, b⟩ <;> cases a <;> cases b <;>
    simp_all [modeEffect, modeInvariant]

/-- Folding the mode-switching effect over any toggle sequence preserves
the session invariant. -/
theorem foldl_modeEffect_invariant (ready hasImage hasDrawControl : Bool)
    (ms : List EditorMode) (s : ModeState)
    (h : modeInvariant hasImage hasDrawControl s = true) :
    modeInvariant hasImage hasDrawControl
      (ms.foldl (modeEffect ready hasImage hasDrawControl) s) = true := by
  induction ms generalizing s with
  | nil => simpa using h
  | cons m rest ih =>
    exact ih _ (modeEffect_preserves_invariant ready hasImage hasDrawControl s m h)

/-- Every state reachable by a sequence of mode toggles satisfies the
session invariant. -/
theorem runModes_invariant (ready hasImage hasDrawControl : Bool)
    (ms : List EditorMode) :
    modeInvariant hasImage hasDrawControl (runModes ready hasImage hasDrawControl ms)
      = true := by
  have base : modeInvariant hasImage hasDrawControl initialModeState = true := by
    cases hasImage <;> cases hasDrawControl <;> rfl
  exact foldl_modeEffect_invariant ready hasImage hasDrawControl ms initialModeState base

/-- Claim C1: across every sequence of mode-toggle invocations, at most one
of the two interactive editing affordances is active; with an image overlay
and a draw control present, entering Transform (distort) mode detaches the
draw control and enables image editing, entering Annotate (draw) mode
attaches the draw control and disables image editing, and invoking the
same target mode twice leaves the affordance state unchanged. -/
theorem mode_toggle_mutual_exclusion :
    (∀ (ready hasImage hasDrawControl : Bool) (s : ModeState) (m : EditorMode),
      modeEffect ready hasImage hasDrawControl
        (modeEffect ready hasImage hasDrawControl s m) m =
      modeEffect ready hasImage hasDrawControl s m) ∧
    (∀ s : ModeState, modeEffect true true true s EditorMode.distort =
      { drawControlActive := false, imageEditingEnabled := true }) ∧
    (∀ s : ModeState, modeEffect true true true s EditorMode.draw =
      { drawControlActive := true, imageEditingEnabled := false }) ∧
    (∀ (ready hasImage hasDrawControl : Bool) (ms : List EditorMode),
      ((runModes ready hasImage hasDrawControl ms).drawControlActive &&
       (runModes ready hasImage hasDrawControl ms).imageEditingEnabled) = false) := by
  refine ⟨?_, ?_, ?_, ?_⟩
  · intro ready hasImage hasDrawControl s m
    cases m <;> cases ready <;> cases hasImage <;> cases hasDrawControl <;>
      rcases s with ⟨a, b⟩ <;> cases a <;> cases b <;> rfl
  · intro s
    rcases s with ⟨a, b⟩
    cases a <;> cases b <;> rfl
  · intro s
    rcases s with ⟨a, b⟩
    cases a <;> cases b <;> rfl
  · intro ready hasImage hasDrawControl ms
    have h := runModes_invariant ready hasImage hasDrawControl ms
    rcases hs : runModes ready hasImage hasDrawControl ms with ⟨a, b⟩
    rw [hs] at h
    cases a <;> cases b <;> simp_all [modeInvariant]

/-- Claim C2: resubmitting attribute values equal field-by-field to the
stored properties leaves the properties (in particular the last-edited
timestamp) unchanged; the timestamp is stamped exactly when at least one
of name, roomType, roomSubType, area differs. -/
theorem updateAttributes_timestamp_iff_changed (p : FeatureProps) (f : AttrForm)
    (nowIso nowDate : String) :
    ((p.name = f.name ∧ p.roomType = f.roomType ∧ p.roomSubType = f.roomSubType ∧
        p.area = f.area) →
      saveExistingProps p f nowIso nowDate = p) ∧
    ((p.name ≠ f.name ∨ p.roomType ≠ f.roomType ∨ p.roomSubType ≠ f.roomSubType ∨
        p.area ≠ f.area) →
      (saveExistingProps p f nowIso nowDate).lastEdited = some nowIso ∧
      (saveExistingProps p f nowIso nowDate).lastEditedDate = some nowDate) := by
  constructor
  · rintro ⟨h1, h2, h3, h4⟩
    have hd : attrsDiffer p f = false := by
      simp [attrsDiffer, h1, h2, h3, h4]
    rw [saveExistingProps, hd]
    rw [← h1, ← h2, ← h3, ← h4]
    rfl
  · intro h
    have hd : attrsDiffer p f = true := by
      rcases h with h | h | h | h <;> simp [attrsDiffer, bne_iff_ne, h]
    rw [saveExistingProps, hd]
    exact ⟨rfl, rfl⟩

/-- Stored properties of an already-annotated shape, used to instantiate
the no-op resubmission theorem. -/
def propsW : FeatureProps :=
  { name := "Block A", roomType := "Classrooms", roomSubType := "General",
    area := "95.20", timestamp := some "2024-01-01T00:00:00Z",
    dateAdded := some "01/01/2024, 00:00", lastEdited := none, lastEditedDate := none }

/-- A form resubmitting exactly the stored values of `propsW`. -/
def formW : AttrForm :=
  { name := "Block A", roomType := "Classrooms", roomSubType := "General", area := "95.20" }

/-- Witness for claim C2: a concrete no-op resubmission leaves the stored
properties untouched. -/
theorem updateAttributes_noop_witness :
    saveExistingProps propsW formW "2024-02-02T00:00:00Z" "02/02/2024, 00:00" = propsW :=
  (updateAttributes_timestamp_iff_changed propsW formW "2024-02-02T00:00:00Z"
    "02/02/2024, 00:00").1 ⟨rfl, rfl, rfl, rfl⟩

/-- A concrete stand-in for the abstract sine parameter.  The claims it
instantiates never evaluate the sine (the turf formula ignores it on rings
with at most two coordinates and on cached layers). -/
def sineZero : ℚ → ℚ := fun _ => 0

/-- A layer whose GeoJSON ring has only 2 (distinct) points and whose area
has not been computed yet. -/
def twoPointLayer : Layer :=
  { turfArea := none, geojson := some [(0, 0), (1, 0)], props := none }

/-- Counterexample for claim C3: on a ring with fewer than 3 distinct
points the area computation does not fail — it returns the numeric string
"0.00" (and caches the value 0 on the layer); no InvalidGeometryError
exists anywhere in the code. -/
theorem area_two_point_ring_counterexample :
    calculateShapeArea sineZero 0 twoPointLayer =
      ("0.00", { twoPointLayer with turfArea := some 0 }) ∧
    (calculateShapeArea sineZero 0 twoPointLayer).1 ≠ "N/A" := by
  have h0 : turfPolygonArea sineZero 0 [(0, 0), (1, 0)] = 0 := by
    simp [turfPolygonArea, ringArea]
  constructor
  · show (toFixed2 (turfPolygonArea sineZero 0 [(0, 0), (1, 0)]),
      { twoPointLayer with turfArea := some (turfPolygonArea sineZero 0 [(0, 0), (1, 0)]) }) = _
    rw [h0, toFixed2_zero]
  · show toFixed2 (turfPolygonArea sineZero 0 [(0, 0), (1, 0)]) ≠ "N/A"
    rw [h0, toFixed2_zero]
    decide

/-- Claim C3 as amended: the area computation is total — on any uncached
layer with a GeoJSON ring it returns the two-decimal formatting of the
computed turf area (never an InvalidGeometryError, which the code does not
define), and on a ring with fewer than 3 coordinates that area is 0,
formatted "0.00". -/
theorem area_small_ring_returns_zero (sine : ℚ → ℚ) (pic : ℚ) (la : Layer)
    (ring : List (ℚ × ℚ)) (hta : la.turfArea = none) (hgj : la.geojson = some ring) :
    calculateShapeArea sine pic la =
      (toFixed2 (turfPolygonArea sine pic ring),
        { la with turfArea := some (turfPolygonArea sine pic ring) }) ∧
    (ring.length < 3 →
      turfPolygonArea sine pic ring = 0 ∧ (calculateShapeArea sine pic la).1 = "0.00") := by
  rcases la with ⟨ta, gj, pr⟩
  simp only at hta hgj
  subst hta
  subst hgj
  constructor
  · rfl
  · intro hlen
    have h0 : ringArea sine pic ring = 0 := by
      unfold ringArea
      rw [if_neg (by omega)]
    have ha : turfPolygonArea sine pic ring = 0 := by
      simp [turfPolygonArea, h0]
    refine ⟨ha, ?_⟩
    show toFixed2 (turfPolygonArea sine pic ring) = "0.00"
    rw [ha, toFixed2_zero]

/-- Witness for the amended claim C3: a one-point ring yields the numeric
string "0.00" and a cached area of 0. -/
theorem area_small_ring_witness :
    calculateShapeArea sineZero 1
        { turfArea := none, geojson := some [(2, 3)], props := none } =
      ("0.00", { turfArea := some 0, geojson := some [(2, 3)], props := none }) := by
  have h := area_small_ring_returns_zero sineZero 1
      { turfArea := none, geojson := some [(2, 3)], props := none } [(2, 3)] rfl rfl
  have hz := (h.2 (by simp)).1
  rw [h.1, hz, toFixed2_zero]

/-- A freshly drawn layer: area cached by the draw-created handler, no
feature properties yet. -/
def freshLayer : Layer := { turfArea := some 100, geojson := none, props := none }

/-- A form whose name field was left blank. -/
def blankNameForm : AttrForm :=
  { name := "", roomType := "", roomSubType := "", area := "100.00" }

/-- Counterexample for claim C4: pressing Save with a blank name on a
freshly drawn shape is not rejected — the attributes (with empty name and a
fresh timestamp) are written to the layer and the form closes. -/
theorem save_blank_name_counterexample :
    saveClick sineZero 0 (some freshLayer) blankNameForm "T1" "D1" true =
      { layer := some { freshLayer with
          props := some { emptyProps with
            name := "", roomType := "", roomSubType := "", area := "100.00",
            timestamp := some "T1", dateAdded := some "D1" } },
        showAttrForm := false,
        activeLayer := none } := by
  rfl

/-- Claim C4 as amended: the Save handler performs no name validation — for
any active freshly drawn layer (no stored properties) and any form with a
blank name, Save commits the attributes through applyAttributesToLayer
(empty name, fresh timestamp) and closes the form. -/
theorem save_blank_name_commits (sine : ℚ → ℚ) (pic : ℚ) (la : Layer) (f : AttrForm)
    (nowIso nowDate : String) (hp : la.props = none) (hn : f.name = "") :
    saveClick sine pic (some la) f nowIso nowDate true =
      { layer := some (applyAttributesToLayer sine pic la f nowIso nowDate),
        showAttrForm := false, activeLayer := none } ∧
    (applyAttributesToLayer sine pic la f nowIso nowDate).props.map FeatureProps.name
      = some "" ∧
    (applyAttributesToLayer sine pic la f nowIso nowDate).props.map FeatureProps.timestamp
      = some (some nowIso) := by
  rcases la with ⟨ta, gj, pr⟩
  simp only at hp
  subst hp
  refine ⟨rfl, ?_, ?_⟩
  · simp [applyAttributesToLayer, hn]
  · simp [applyAttributesToLayer]

/-- Witness for the amended claim C4: the concrete blank-name save closes
the form. -/
theorem save_blank_name_witness :
    (saveClick sineZero 0 (some freshLayer) blankNameForm "T2" "D2" true).showAttrForm
      = false := by
  have h := save_blank_name_commits sineZero 0 freshLayer blankNameForm "T2" "D2" rfl rfl
  rw [h.1]

/-- Properties carrying only a sub-type tag: name and type are empty. -/
def subTypeOnlyProps : FeatureProps := { emptyProps with roomSubType := "Science Lab" }

/-- A stored layer whose only non-empty attribute is the sub-type tag. -/
def subTypeOnlyLayer : Layer :=
  { turfArea := none, geojson := none, props := some subTypeOnlyProps }

/-- Counterexample for claim C5: the annotated-shapes query answers true
for a store whose single shape has an empty name and an empty type tag
(only the sub-type tag is set), contradicting the stated iff. -/
theorem configured_subtype_only_counterexample :
    hasConfiguredShapes (some [subTypeOnlyLayer]) = true ∧
    subTypeOnlyProps.name = "" ∧ subTypeOnlyProps.roomType = "" := by
  refine ⟨?_, rfl, rfl⟩
  rfl

/-- One layer passes the configured test exactly when it has stored
properties with a non-empty name, type tag or sub-type tag. -/
theorem layerConfigured_iff (la : Layer) :
    layerConfigured la = true ↔
      ∃ p, la.props = some p ∧
        (p.name ≠ "" ∨ p.roomType ≠ "" ∨ p.roomSubType ≠ "") := by
  cases h : la.props <;> simp [layerConfigured, h, bne_iff_ne, or_assoc]

/-- Claim C5 as amended: hasConfiguredShapes answers true iff at least one
stored shape has a non-empty name, a non-empty type tag or a non-empty
sub-type tag; with no drawn-items group it answers false. -/
theorem hasConfiguredShapes_characterization :
    (∀ ls : List Layer,
      hasConfiguredShapes (some ls) = true ↔
        ∃ la ∈ ls, ∃ p, la.props = some p ∧
          (p.name ≠ "" ∨ p.roomType ≠ "" ∨ p.roomSubType ≠ "")) ∧
    hasConfiguredShapes none = false := by
  constructor
  · intro ls
    simp [hasConfiguredShapes, List.any_eq_true, layerConfigured_iff]
  · rfl

/-- Claim C6: when the map and plugins are ready and the distortable-image
plugin is present, placing an image creates the overlay in the unselected
state with a bounding box exactly centered on the current map center, its
half-span being 0.005 divided by 2 to the power (15 - zoom). -/
theorem addImage_bounds_centered (view : MapView) (url : String) :
    addImageToMap true true view url =
      some { url := url, selected := false, distortable := true,
             corner1 := (view.lat - imageOffset view.zoom, view.lng - imageOffset view.zoom),
             corner2 := (view.lat + imageOffset view.zoom, view.lng + imageOffset view.zoom) } ∧
    imageOffset view.zoom = (5 / 1000 : ℚ) / (2 : ℚ) ^ ((15 : ℤ) - view.zoom) :=
  ⟨rfl, rfl⟩

/-- Claim C7: on a change of the selected type, the previously chosen
sub-type is kept exactly when it is among the sub-types valid for the new
type and reset to empty otherwise; with no type chosen the sub-type
selector is disabled and the sub-type value is reset to empty. -/
theorem subtype_filter_resets_invalid (subMap : List (String × List String))
    (rt st : String) :
    (rt ≠ "" →
      (filterSubTypes subMap rt st).2 =
        if st ∈ (subMap.lookup rt).getD [] then st else "") ∧
    (rt = "" →
      filterSubTypes subMap rt st = ([], "") ∧ subTypeSelectorDisabled rt = true) ∧
    (subTypeSelectorDisabled rt = true ↔ rt = "") := by
  refine ⟨?_, ?_, ?_⟩
  · intro h
    have hb : (rt != "") = true := by simp [bne_iff_ne, h]
    unfold filterSubTypes
    rw [hb]
    cases hlk : subMap.lookup rt with
    | none => simp [hlk]
    | some av =>
      simp only [hlk, Option.getD_some, if_true]
      by_cases hm : st ∈ av
      · simp [List.contains, List.elem_iff, hm]
      · simp [List.contains, List.elem_iff, hm]
  · intro h
    subst h
    exact ⟨rfl, rfl⟩
  · simp [subTypeSelectorDisabled]

/-- Witness for claim C7: a sub-type valid for the newly selected type is
kept. -/
theorem subtype_filter_witness :
    (filterSubTypes [("Classrooms", ["General", "Science"])] "Classrooms" "Science").2
      = "Science" := by
  have h := (subtype_filter_resets_invalid
      [("Classrooms", ["General", "Science"])] "Classrooms" "Science").1 (by decide)
  rw [h]
  decide

/-- Claim C8: the code violates the claim.  When the component unmounts
while the initialization awaits geocodePostcode (a postcode was supplied),
the cancelled flag is already true when the await resumes, yet — because
the single flag check sits before the geocode await, not after it — the
effect still creates the map, adds the tile layer, initializes the draw
tools and registers the resize listener on behalf of the torn-down host. -/
theorem init_mutates_after_cancelled_geocode :
    cancelledBeforeMapCreation UnmountTiming.duringGeocode = true ∧
    cancelledAtImportCheck UnmountTiming.duringGeocode = false ∧
    initMutations UnmountTiming.duringGeocode true =
      [InitMutation.mapCreated, InitMutation.tileLayerAdded,
       InitMutation.drawToolsInitialized, InitMutation.resizeListenerAdded,
       InitMutation.mapReadySet] ∧
    InitMutation.mapCreated ∈ initMutations UnmountTiming.duringGeocode true := by
  refine ⟨rfl, rfl, rfl, ?_⟩
  decide

/-- Claim C9: with the drawn-shape collection never initialized, the public
operations are total and safe — the annotated-shapes query answers false
and the export returns without producing a document, whatever the state of
the leaflet module reference. -/
theorem uninitialized_store_safe :
    hasConfiguredShapes none = false ∧
    (∀ leafletLoaded : Bool, exportGeoJSON leafletLoaded none = none) :=
  ⟨rfl, fun _ => rfl⟩

/-- Claim C10: the shape-area computation is memoized and idempotent — a
cached layer is answered from the cache (the cached value formatted to two
decimals, the layer untouched), the first successful computation caches the
turf area on the layer, and re-running the computation on the returned
layer reproduces the identical result. -/
theorem area_memoization_idempotent (sine : ℚ → ℚ) (pic : ℚ) (la : Layer) :
    (∀ a, la.turfArea = some a → calculateShapeArea sine pic la = (toFixed2 a, la)) ∧
    (∀ ring, la.turfArea = none → la.geojson = some ring →
      calculateShapeArea sine pic la =
        (toFixed2 (turfPolygonArea sine pic ring),
         { la with turfArea := some (turfPolygonArea sine pic ring) })) ∧
    calculateShapeArea sine pic (calculateShapeArea sine pic la).2 =
      calculateShapeArea sine pic la := by
  rcases la with ⟨ta, gj, pr⟩
  refine ⟨?_, ?_, ?_⟩
  · intro a h
    simp only at h
    subst h
    rfl
  · intro ring h hg
    simp only at h hg
    subst h
    subst hg
    rfl
  · cases ta with
    | some b => rfl
    | none =>
      cases gj with
      | some r => rfl
      | none => rfl

/-- A layer whose area is already cached. -/
def cachedLayer : Layer := { turfArea := some 5, geojson := none, props := none }

/-- Witness for claim C10: the cached layer is answered from the cache,
formatted to two decimals, with the layer unchanged. -/
theorem area_memoization_witness :
    calculateShapeArea sineZero 0 cachedLayer = ("5.00", cachedLayer) := by
  have h := (area_memoization_idempotent sineZero 0 cachedLayer).1 5 rfl
  rw [h, toFixed2_five]
